import Mathlib

/-!
# examples/projectTest/main.cpp

A shallow embedding of the projectTest harness: `readShape`, `shapeToTopology`,
`createOsdMesh`, `callbackError` and `main`.

The harness calls into code that is not part of the file: `shape::parseShape`,
`PxOsdUtilSubdivTopology::IsValid`, the methods of `PxOsdUtilUniformEvaluator`
and the file system.  Those are collected in the structure `World`, which the
harness functions take as a parameter; nothing is assumed about what the
library calls return, about what `ftell` reports or about which allocations
succeed.  The C library's `fread` is described by `FILE` and `fread` below.

Every harness function returns, next to its value, what it wrote to standard
output; `createOsdMesh` also returns the list of the calls it made.
-/

set_option linter.unusedVariables false

namespace ProjectTest

/-- A `float` value, carried as its bit pattern.  The harness never computes
with floats, it only moves and prints them. -/
abbrev FloatBits := Nat

/-- One item written to standard output, by `printf` or by `operator<<`. -/
inductive Tok where
  /-- a C string, a string literal or a `std::string` -/
  | str (s : String)
  /-- a `size_t` -/
  | nat (n : Nat)
  /-- an `int` -/
  | int (i : Int)
  /-- a `float` -/
  | flt (x : FloatBits)
  /-- the pointer `errorMessage` (a `std::string *`) itself -/
  | ptr
  /-- the manipulator `std::endl` -/
  | endl
  deriving DecidableEq, Repr

/-- The raw mesh `shape` of regression/common/shape_utils.h, restricted to the
members the harness reads.  `getNverts` is the value its accessor of that name
returns; the accessor is defined in shape_utils.h, so it is kept as data. -/
structure shape where
  verts : List FloatBits
  nvertsPerFace : List Int
  faceverts : List Int
  getNverts : Int
  deriving DecidableEq, Repr

/-- The members of `PxOsdUtilSubdivTopology` that the harness assigns. -/
structure PxOsdUtilSubdivTopology where
  numVertices : Int
  maxLevels : Int
  nverts : List Int
  indices : List Int
  deriving DecidableEq, Repr

/-- An open stream.  `bytes` are the bytes that reading the stream from its
start delivers before it meets the end of the file or an error (none for a
directory).  `ftell` is the `long` that `ftell(handle)` returns after
`fseek(handle, 0, SEEK_END)`: -1 when it fails, as on a pipe; for a regular
file the length of the file; for other streams whatever the system reports,
which need not be the number of bytes that can be read. -/
structure FILE where
  bytes : List Nat
  ftell : Int
  deriving DecidableEq, Repr

/-- What `IsValid(errorMessage)` hands back: its `bool`, the content of
`*errorMessage` afterwards, and the errors it reported through the error
callback registered with `OsdSetErrorCallback`. -/
structure Verdict where
  ok : Bool
  errorMessage : String
  errors : List (Int × String)

/-- What a method of the evaluator hands back: its `bool`, the content of
`*errorMessage` afterwards, the evaluator afterwards, the values stored
through its other output parameters, and the errors it reported through the
registered error callback. -/
structure Ret (σ ρ : Type) where
  ok : Bool
  errorMessage : String
  self : σ
  value : ρ
  errors : List (Int × String)

/-- Everything the harness calls that is defined outside main.cpp.  `σ` is the
type of the internal state of a `PxOsdUtilUniformEvaluator`. -/
structure World (σ : Type) where
  /-- The call `fopen(fname, "rt")`; `none` is the null pointer. -/
  fopen : String → Option FILE
  /-- Whether `new char[n]` succeeds; when it does not, it throws
  `std::bad_alloc`. -/
  newChar : Nat → Bool
  /-- The call `shape::parseShape(shapeStr, axis)`; the first argument is the
  content of the buffer, the terminating NUL included. -/
  parseShape : List Nat → Int → shape
  /-- the default-constructed `PxOsdUtilSubdivTopology` -/
  newTopology : PxOsdUtilSubdivTopology
  /-- The call `topology.IsValid(errorMessage)`. -/
  IsValid : PxOsdUtilSubdivTopology → String → Verdict
  /-- the default-constructed `PxOsdUtilUniformEvaluator` -/
  newEvaluator : σ
  /-- The call `Initialize(topology, errorMessage)`. -/
  Initialize : σ → PxOsdUtilSubdivTopology → String → Ret σ Unit
  /-- The call `SetCoarsePositions(verts, errorMessage)`; `ok` tells whether the
  call succeeded, which the harness does not look at. -/
  SetCoarsePositions : σ → List FloatBits → String → Ret σ Unit
  /-- The call `Refine(numThreads, errorMessage)`. -/
  Refine : σ → Int → String → Ret σ Unit
  /-- The call `GetRefinedQuads(&refinedQuads, errorMessage)`, made with an empty
  vector; the value is the vector afterwards. -/
  GetRefinedQuads : σ → String → Ret σ (List Int)
  /-- The call `GetRefinedPositions(&refinedPositions, &numFloats, errorMessage)`,
  made with a null pointer and 0; the value is the array `refinedPositions`
  points to afterwards (empty for a null pointer) and `numFloats` afterwards. -/
  GetRefinedPositions : σ → String → Ret σ (List FloatBits × Int)

/-- The number of values of a `size_t`, taken to be 64 bits wide. -/
def sizeRange : Nat := 18446744073709551616

/-- The C library call `fread(shapeStr, size, 1, handle)` on a stream
positioned at its start: the return value and the bytes stored in the buffer.
With `size` 0 nothing is read and 0 is returned.  Otherwise the one item is
read, and 1 returned, when the stream delivers `size` bytes; when it delivers
fewer, those are stored and 0 is returned. -/
def fread (handle : FILE) (size : Nat) : Nat × List Nat :=
  if size = 0 then (0, [])
  else if size ≤ handle.bytes.length then (1, handle.bytes.take size)
  else (0, handle.bytes)

/-- How a call of `readShape` ends. -/
inductive ReadShape where
  /-- a diagnostic was printed and `exit(code)` called; `parseShape` was not
  called -/
  | exited (code : Int) (out : List Tok)
  /-- the expression `new char[size+1]` threw `std::bad_alloc`, which nothing
  catches: the program was terminated before `fread`, with nothing printed to
  standard output -/
  | aborted
  /-- the call of `fread` stored bytes past the end of the buffer; from there on
  the behaviour of the program is undefined -/
  | overrun
  /-- the call `parseShape(shapeStr, axis)` was made and its result returned -/
  | returned (shapeStr : List Nat) (axis : Int) (result : shape)
  deriving DecidableEq, Repr

/-- The function `readShape`.  `size` is the result of `ftell` converted to
`size_t`, and `length` the number of `char`s asked of `new`, the sum `size+1`
in `size_t`. -/
def readShape {σ : Type} (w : World σ) (fname : String) : ReadShape :=
  match w.fopen fname with
  | none => .exited 0 [.str "Could not open \"", .str fname, .str "\" - aborting.\n"]
  | some handle =>
    let size := (handle.ftell % (sizeRange : Int)).toNat
    let length := (size + 1) % sizeRange
    if !w.newChar length then .aborted
    else
      let rd := fread handle size
      if length < rd.2.length then .overrun
      else if rd.1 ≠ 1 then
        .exited 0 [.str "Error reading \"", .str fname, .str "\" - aborting.\n"]
      else
        let shapeStr := rd.2 ++ [0]
        .returned shapeStr 1 (w.parseShape shapeStr 1)

/-- The function `shapeToTopology`: the topology `*output` afterwards, and what
`IsValid` hands back. -/
def shapeToTopology {σ : Type} (w : World σ) (input : shape)
    (output : PxOsdUtilSubdivTopology) (errorMessage : String) :
    PxOsdUtilSubdivTopology × Verdict :=
  let numVertices := input.getNverts
  let output := { output with numVertices := numVertices }
  let output := { output with maxLevels := 3 }
  let output := { output with nverts := input.nvertsPerFace }
  let output := { output with indices := input.faceverts }
  (output, w.IsValid output errorMessage)

/-- The function `callbackError`. -/
def callbackError (err : Int) (message : String) : List Tok :=
  [.str "OsdError: ", .int err, .str "\n", .str message]

/-- The output of the registered callback for the errors reported during one
call. -/
def report (errors : List (Int × String)) : List Tok :=
  errors.flatMap fun e => callbackError e.1 e.2

/-- The loop `for (int i=0; i<(int)refinedQuads.size(); i+=4)` of
`createOsdMesh`, entered with the counter at `i`: what it prints.
`refinedQuads[k]` is the unchecked `operator[]`; for a `k` past the end, where
C++ leaves the value read undefined, the embedding reads 0.  The size of the
vector is taken to fit an `int`, and the counter is not reduced modulo 2^32: a
signed counter that overflows is undefined in C++ as well. -/
def printQuads (refinedQuads : List Int) (i : Int) : List Tok :=
  if i < (refinedQuads.length : Int) then
    [.str "(", .int (refinedQuads.getD i.toNat 0),
     .str ", ", .int (refinedQuads.getD (i + 1).toNat 0),
     .str ", ", .int (refinedQuads.getD (i + 2).toNat 0),
     .str ", ", .int (refinedQuads.getD (i + 3).toNat 0),
     .str ")\n"] ++ printQuads refinedQuads (i + 4)
  else []
termination_by ((refinedQuads.length : Int) - i).toNat
decreasing_by omega

/-- The loop `for (int i=0; i<numFloats; i+=3)` of `createOsdMesh`, entered
with the counter at `i`: what it prints, and the indices at which it reads
`refinedPositions`, in the order of the reads.  A read past the end of the
array, undefined in C++, reads 0 here and is recorded like any other.  The
counter is not reduced modulo 2^32; when `numFloats` is a multiple of 3 the
counter stops at `numFloats` and stays an `int`. -/
def printPositions (refinedPositions : List FloatBits) (numFloats : Int) (i : Int) :
    List Tok × List Int :=
  if i < numFloats then
    let rest := printPositions refinedPositions numFloats (i + 3)
    ([.str "(", .flt (refinedPositions.getD i.toNat 0),
      .str ", ", .flt (refinedPositions.getD (i + 1).toNat 0),
      .str ",", .flt (refinedPositions.getD (i + 2).toNat 0),
      .str ")\n"] ++ rest.1,
     [i, i + 1, i + 2] ++ rest.2)
  else ([], [])
termination_by (numFloats - i).toNat
decreasing_by omega

/-- A call that `createOsdMesh` makes, with the arguments passed and the
`bool` returned.  For `shapeToTopology` the topology is `*output` as the call
leaves it. -/
inductive Event where
  | readShape (fname : String)
  | shapeToTopology (input : shape) (output : PxOsdUtilSubdivTopology) (ok : Bool)
  | Initialize (topology : PxOsdUtilSubdivTopology) (ok : Bool)
  | SetCoarsePositions (verts : List FloatBits) (ok : Bool)
  | Refine (numThreads : Int) (ok : Bool)
  | GetRefinedQuads (ok : Bool)
  | GetRefinedPositions (ok : Bool)
  deriving DecidableEq, Repr

/-- One execution of `createOsdMesh`. -/
structure Run where
  /-- the calls made, in order -/
  trace : List Event
  /-- what was written to standard output, in order -/
  out : List Tok
  /-- the indices at which the last loop read `refinedPositions`, in order -/
  posReads : List Int
  /-- the content of `*errorMessage` at the end -/
  errorMessage : String
  /-- the value returned; `none` when the execution ended inside `readShape` -/
  result : Option Bool
  deriving DecidableEq, Repr

/-- The function `createOsdMesh`; `errorMessage` is the content of
`*errorMessage` on entry.  An execution whose behaviour becomes undefined
inside `readShape` is cut there. -/
def createOsdMesh {σ : Type} (w : World σ) (inputFile outputFile : String)
    (errorMessage : String) : Run :=
  match readShape w inputFile with
  | .exited _ out =>
    { trace := [.readShape inputFile], out := out, posReads := [],
      errorMessage := errorMessage, result := none }
  | .aborted =>
    { trace := [.readShape inputFile], out := [], posReads := [],
      errorMessage := errorMessage, result := none }
  | .overrun =>
    { trace := [.readShape inputFile], out := [], posReads := [],
      errorMessage := errorMessage, result := none }
  | .returned _ _ inputShape =>
    let built := shapeToTopology w inputShape w.newTopology errorMessage
    let topology := built.1
    let valid := built.2
    let trace := [.readShape inputFile, .shapeToTopology inputShape topology valid.ok]
    let out := report valid.errors
    if !valid.ok then
      { trace := trace, out := out, posReads := [],
        errorMessage := valid.errorMessage, result := some false }
    else
      let ini := w.Initialize w.newEvaluator topology valid.errorMessage
      let trace := trace ++ [.Initialize topology ini.ok]
      let out := out ++ report ini.errors
      if !ini.ok then
        { trace := trace, out := out, posReads := [],
          errorMessage := ini.errorMessage, result := some false }
      else
        let set := w.SetCoarsePositions ini.self inputShape.verts ini.errorMessage
        let trace := trace ++ [.SetCoarsePositions inputShape.verts set.ok]
        let out := out ++ report set.errors
        let ref := w.Refine set.self 8 set.errorMessage
        let trace := trace ++ [.Refine 8 ref.ok]
        let out := out ++ report ref.errors
        if !ref.ok then
          { trace := trace, out := out, posReads := [],
            errorMessage := ref.errorMessage, result := some false }
        else
          let quads := w.GetRefinedQuads ref.self ref.errorMessage
          let refinedQuads := quads.value
          let trace := trace ++ [.GetRefinedQuads quads.ok]
          let out := out ++ report quads.errors
          let out := if !quads.ok then
              out ++ [.str "GetRefinedQuads failed with ", .ptr, .endl]
            else out
          let pos := w.GetRefinedPositions quads.self quads.errorMessage
          let refinedPositions := pos.value.1
          let numFloats := pos.value.2
          let trace := trace ++ [.GetRefinedPositions pos.ok]
          let out := out ++ report pos.errors
          let out := if !pos.ok then
              out ++ [.str "GetRefinedPositions failed with ", .ptr, .endl]
            else out
          let out := out ++ [.str "Quads = ", .nat (refinedQuads.length / 4), .endl]
          let out := out ++ printQuads refinedQuads 0
          let out := out ++ [.str "Hot damn, it worked.\n"]
          let out := out ++ [.str "Positions = ", .int (numFloats.tdiv 3), .endl]
          let loop := printPositions refinedPositions numFloats 0
          let out := out ++ loop.1
          { trace := trace, out := out, posReads := loop.2,
            errorMessage := pos.errorMessage, result := some true }

/-- One execution of the program. -/
structure Process where
  /-- what was written to standard output, in order -/
  out : List Tok
  /-- the execution of `createOsdMesh`, when `main` got that far -/
  run : Option Run
  deriving DecidableEq, Repr

/-- The function `main`; `argv` holds the `argc` arguments, the program name
first. -/
def main {σ : Type} (w : World σ) (argv : List String) : Process :=
  match argv with
  | _ :: input :: output :: _ =>
    let out := [.str "input is ", .str input, .str " and output is ", .str output, .endl]
    let errorMessage := ""
    let run := createOsdMesh w input output errorMessage
    let out := out ++ run.out
    match run.result with
    | none => { out := out, run := some run }
    | some true => { out := out, run := some run }
    | some false =>
      { out := out ++ [.str "Failed with error: ", .str run.errorMessage, .endl],
        run := some run }
  | _ => { out := [.str "Usage: projectTest input.obj output\n"], run := none }

/-- The characters a token puts on standard output.  `showFloat` is the text
`operator<<` produces for a `float` and `showPtr` the text it produces for the
address held in `errorMessage`; both depend on the platform. -/
def Tok.text (showFloat : FloatBits → String) (showPtr : String) : Tok → String
  | .str s => s
  | .nat n => toString n
  | .int i => toString i
  | .flt x => showFloat x
  | .ptr => showPtr
  | .endl => "\n"

/-- The text a sequence of tokens puts on standard output. -/
def render (showFloat : FloatBits → String) (showPtr : String) (out : List Tok) : String :=
  String.join (out.map (Tok.text showFloat showPtr))

/-- Whether `needle` occurs in `text` as a contiguous run of characters. -/
def occursIn (needle text : String) : Prop :=
  needle.data <:+: text.data

instance (needle text : String) : Decidable (occursIn needle text) := by
  unfold occursIn; infer_instance

/-- Whether a call is a method of the evaluator. -/
def Event.isEvaluatorOp : Event → Bool
  | .readShape _ => false
  | .shapeToTopology _ _ _ => false
  | _ => true

/-- Whether a call is one of the two retrieval methods. -/
def Event.isRetrieval : Event → Bool
  | .GetRefinedQuads _ => true
  | .GetRefinedPositions _ => true
  | _ => false

/-! ### The calls along the straight-line path

For a shape `s` returned by `readShape` and the content `msg` of
`*errorMessage` on entry, what each call of `createOsdMesh` hands back if the
execution gets as far as making it. -/

/-- The call `shapeToTopology(inputShape, &topology, errorMessage)`. -/
def atShapeToTopology {σ : Type} (w : World σ) (s : shape) (msg : String) :
    PxOsdUtilSubdivTopology × Verdict :=
  shapeToTopology w s w.newTopology msg

/-- The call `uniformEvaluator.Initialize(topology, errorMessage)`. -/
def atInitialize {σ : Type} (w : World σ) (s : shape) (msg : String) : Ret σ Unit :=
  w.Initialize w.newEvaluator (atShapeToTopology w s msg).1
    (atShapeToTopology w s msg).2.errorMessage

/-- The call `uniformEvaluator.SetCoarsePositions(inputShape->verts, errorMessage)`. -/
def atSetCoarsePositions {σ : Type} (w : World σ) (s : shape) (msg : String) : Ret σ Unit :=
  w.SetCoarsePositions (atInitialize w s msg).self s.verts (atInitialize w s msg).errorMessage

/-- The call `uniformEvaluator.Refine(8, errorMessage)`. -/
def atRefine {σ : Type} (w : World σ) (s : shape) (msg : String) : Ret σ Unit :=
  w.Refine (atSetCoarsePositions w s msg).self 8 (atSetCoarsePositions w s msg).errorMessage

/-- The call `uniformEvaluator.GetRefinedQuads(&refinedQuads, errorMessage)`. -/
def atGetRefinedQuads {σ : Type} (w : World σ) (s : shape) (msg : String) :
    Ret σ (List Int) :=
  w.GetRefinedQuads (atRefine w s msg).self (atRefine w s msg).errorMessage

/-- The call `uniformEvaluator.GetRefinedPositions(&refinedPositions, &numFloats,
errorMessage)`. -/
def atGetRefinedPositions {σ : Type} (w : World σ) (s : shape) (msg : String) :
    Ret σ (List FloatBits × Int) :=
  w.GetRefinedPositions (atGetRefinedQuads w s msg).self (atGetRefinedQuads w s msg).errorMessage

/-- The seven tokens the position loop prints for one triple. -/
def triple (x y z : FloatBits) : List Tok :=
  [.str "(", .flt x, .str ", ", .flt y, .str ",", .flt z, .str ")\n"]

/-! ### Sample worlds

A stand-in evaluator that follows the state order of the specification
(`stage` 0 uninitialized, 1 initialized, 2 populated, 3 refined), a few input
files, and variants in which one call fails. -/

namespace Sample

/-- The state of the stand-in evaluator. -/
structure Evaluator where
  stage : Nat
  numVertices : Int
  deriving DecidableEq, Repr

/-- A unit square: four vertices, one quad. -/
def quad : shape :=
  { verts := [0, 0, 0, 1065353216, 0, 0, 1065353216, 1065353216, 0, 0, 1065353216, 0],
    nvertsPerFace := [4], faceverts := [0, 1, 2, 3], getNverts := 4 }

/-- A shape whose vertex array breaks off in the second vertex: five floats,
counted as one vertex, and no face. -/
def short : shape :=
  { verts := [0, 0, 0, 1065353216, 0], nvertsPerFace := [], faceverts := [],
    getNverts := 1 }

/-- The topology `shapeToTopology` builds from `quad`. -/
def quadTopology : PxOsdUtilSubdivTopology :=
  { numVertices := 4, maxLevels := 3, nverts := [4], indices := [0, 1, 2, 3] }

/-- The topology `shapeToTopology` builds from `short`. -/
def shortTopology : PxOsdUtilSubdivTopology :=
  { numVertices := 1, maxLevels := 3, nverts := [], indices := [] }

/-- Six floats, the refined positions the stand-in evaluator hands out. -/
def positions : List FloatBits := [0, 0, 0, 1056964608, 0, 0]

/-- The file system has the regular files `quad.obj` (two bytes), `short.obj`
(three bytes) and `empty.obj` (no byte); the directory `meshes`, for which
`ftell` reports the largest `long` and no byte can be read; the attribute file
`attr`, for which `ftell` reports a page while two bytes can be read; and the
pipe `pipe`, on which `ftell` fails while two bytes can be read.  Allocations
of up to 2^32 bytes succeed. -/
def world : World Evaluator where
  fopen := fun fname =>
    if fname = "quad.obj" then some ⟨[118, 10], 2⟩
    else if fname = "short.obj" then some ⟨[118, 32, 10], 3⟩
    else if fname = "empty.obj" then some ⟨[], 0⟩
    else if fname = "meshes" then some ⟨[], 9223372036854775807⟩
    else if fname = "attr" then some ⟨[49, 10], 4096⟩
    else if fname = "pipe" then some ⟨[118, 10], -1⟩
    else none
  newChar := fun n => decide (n ≤ 4294967296)
  parseShape := fun shapeStr _ => if shapeStr = [118, 10, 0] then quad else short
  newTopology := ⟨0, 0, [], []⟩
  IsValid := fun t msg =>
    if 0 < t.numVertices then ⟨true, msg, []⟩ else ⟨false, "InvalidTopology", []⟩
  newEvaluator := ⟨0, 0⟩
  Initialize := fun e t msg => ⟨true, msg, ⟨1, t.numVertices⟩, (), []⟩
  SetCoarsePositions := fun e verts msg =>
    if (verts.length : Int) = 3 * e.numVertices then ⟨true, msg, { e with stage := 2 }, (), []⟩
    else ⟨false, "SizeMismatch", e, (), []⟩
  Refine := fun e n msg =>
    if 2 ≤ e.stage ∧ 1 ≤ n then ⟨true, msg, { e with stage := 3 }, (), []⟩
    else ⟨false, "NotReady", e, (), []⟩
  GetRefinedQuads := fun e msg =>
    if e.stage = 3 then ⟨true, msg, e, [0, 1, 2, 3], []⟩
    else ⟨false, "not refined yet", e, [], []⟩
  GetRefinedPositions := fun e msg =>
    if e.stage = 3 then ⟨true, msg, e, (positions, 6), []⟩
    else ⟨false, "not refined yet", e, ([], 0), []⟩

/-- The sample world with an `IsValid` that rejects every topology. -/
def worldInvalid : World Evaluator :=
  { world with IsValid := fun _ _ => ⟨false, "InvalidTopology", []⟩ }

/-- The sample world with an `Initialize` that fails. -/
def worldInitializeFails : World Evaluator :=
  { world with Initialize := fun e _ _ => ⟨false, "bad", e, (), []⟩ }

/-- The sample world with a `GetRefinedQuads` that fails. -/
def worldQuadsFail : World Evaluator :=
  { world with GetRefinedQuads := fun e _ => ⟨false, "quads not ready", e, [], []⟩ }

/-- The sample world in which `SetCoarsePositions` and both retrieval methods
fail while the other calls succeed. -/
def worldLenient : World Evaluator :=
  { world with
    SetCoarsePositions := fun e _ _ => ⟨false, "SizeMismatch", e, (), []⟩
    Refine := fun e _ msg => ⟨true, msg, { e with stage := 3 }, (), []⟩
    GetRefinedQuads := fun e _ => ⟨false, "no quads", e, [], []⟩
    GetRefinedPositions := fun e _ => ⟨false, "no positions", e, ([], 0), []⟩ }

/-- The text of a `float` in the sample runs: its bit pattern in decimal. -/
def showFloat (x : FloatBits) : String := toString x

/-- The text of the address of `errorMessage` in the sample runs. -/
def showPtr : String := "0x7ffc2f1e59c0"

end Sample

/-! ### The five ways an execution of `createOsdMesh` can go -/

section Paths

variable {σ : Type} (w : World σ) (f g msg : String)

/-- The execution in which `readShape` ends the program. -/
theorem run_exited {c : Int} {o : List Tok} (hread : readShape w f = .exited c o) :
    createOsdMesh w f g msg =
      { trace := [.readShape f], out := o, posReads := [], errorMessage := msg,
        result := none } := by
  simp [createOsdMesh, hread]

/-- The execution in which the validation of the topology fails. -/
theorem run_invalid {a : List Nat} {x : Int} {s : shape}
    (hread : readShape w f = .returned a x s)
    (hv : (atShapeToTopology w s msg).2.ok = false) :
    createOsdMesh w f g msg =
      { trace := [.readShape f, .shapeToTopology s (atShapeToTopology w s msg).1 false],
        out := report (atShapeToTopology w s msg).2.errors, posReads := [],
        errorMessage := (atShapeToTopology w s msg).2.errorMessage,
        result := some false } := by
  simp only [atShapeToTopology] at hv
  simp [createOsdMesh, hread, atShapeToTopology, hv]

/-- The execution in which `Initialize` fails. -/
theorem run_initFailed {a : List Nat} {x : Int} {s : shape}
    (hread : readShape w f = .returned a x s)
    (hv : (atShapeToTopology w s msg).2.ok = true)
    (hi : (atInitialize w s msg).ok = false) :
    createOsdMesh w f g msg =
      { trace := [.readShape f, .shapeToTopology s (atShapeToTopology w s msg).1 true,
          .Initialize (atShapeToTopology w s msg).1 false],
        out := report (atShapeToTopology w s msg).2.errors ++
          report (atInitialize w s msg).errors,
        posReads := [],
        errorMessage := (atInitialize w s msg).errorMessage,
        result := some false } := by
  simp only [atShapeToTopology, atInitialize] at hv hi
  simp [createOsdMesh, hread, atShapeToTopology, atInitialize, hv, hi]

/-- The execution in which `Refine` fails. -/
theorem run_refineFailed {a : List Nat} {x : Int} {s : shape}
    (hread : readShape w f = .returned a x s)
    (hv : (atShapeToTopology w s msg).2.ok = true)
    (hi : (atInitialize w s msg).ok = true)
    (hr : (atRefine w s msg).ok = false) :
    createOsdMesh w f g msg =
      { trace := [.readShape f, .shapeToTopology s (atShapeToTopology w s msg).1 true,
          .Initialize (atShapeToTopology w s msg).1 true,
          .SetCoarsePositions s.verts (atSetCoarsePositions w s msg).ok,
          .Refine 8 false],
        out := report (atShapeToTopology w s msg).2.errors ++
          report (atInitialize w s msg).errors ++
          report (atSetCoarsePositions w s msg).errors ++
          report (atRefine w s msg).errors,
        posReads := [],
        errorMessage := (atRefine w s msg).errorMessage,
        result := some false } := by
  simp only [atShapeToTopology, atInitialize, atSetCoarsePositions, atRefine] at hv hi hr
  simp [createOsdMesh, hread, atShapeToTopology, atInitialize, atSetCoarsePositions,
    atRefine, hv, hi, hr]

/-- The execution in which `Refine` succeeds: it runs to the end. -/
theorem run_refined {a : List Nat} {x : Int} {s : shape}
    (hread : readShape w f = .returned a x s)
    (hv : (atShapeToTopology w s msg).2.ok = true)
    (hi : (atInitialize w s msg).ok = true)
    (hr : (atRefine w s msg).ok = true) :
    (createOsdMesh w f g msg).trace =
        [.readShape f, .shapeToTopology s (atShapeToTopology w s msg).1 true,
          .Initialize (atShapeToTopology w s msg).1 true,
          .SetCoarsePositions s.verts (atSetCoarsePositions w s msg).ok,
          .Refine 8 true,
          .GetRefinedQuads (atGetRefinedQuads w s msg).ok,
          .GetRefinedPositions (atGetRefinedPositions w s msg).ok] ∧
      (createOsdMesh w f g msg).result = some true ∧
      (createOsdMesh w f g msg).errorMessage = (atGetRefinedPositions w s msg).errorMessage ∧
      (createOsdMesh w f g msg).posReads =
        (printPositions (atGetRefinedPositions w s msg).value.1
          (atGetRefinedPositions w s msg).value.2 0).2 := by
  simp only [atShapeToTopology, atInitialize, atSetCoarsePositions, atRefine] at hv hi hr
  simp [createOsdMesh, hread, atShapeToTopology, atInitialize, atSetCoarsePositions,
    atRefine, atGetRefinedQuads, atGetRefinedPositions, hv, hi, hr]

/-- The shape of the trace of any execution: one of five lists, according to
where the execution stopped. -/
theorem trace_shapes :
    ((createOsdMesh w f g msg).trace = [.readShape f] ∧
      (createOsdMesh w f g msg).result = none) ∨
    (∃ a x s, readShape w f = .returned a x s ∧
      (atShapeToTopology w s msg).2.ok = false ∧
      (createOsdMesh w f g msg).trace =
        [.readShape f, .shapeToTopology s (atShapeToTopology w s msg).1 false] ∧
      (createOsdMesh w f g msg).result = some false) ∨
    (∃ a x s, readShape w f = .returned a x s ∧
      (atShapeToTopology w s msg).2.ok = true ∧
      (createOsdMesh w f g msg).trace =
        [.readShape f, .shapeToTopology s (atShapeToTopology w s msg).1 true,
          .Initialize (atShapeToTopology w s msg).1 false] ∧
      (createOsdMesh w f g msg).result = some false) ∨
    (∃ a x s okS, readShape w f = .returned a x s ∧
      (atShapeToTopology w s msg).2.ok = true ∧
      (createOsdMesh w f g msg).trace =
        [.readShape f, .shapeToTopology s (atShapeToTopology w s msg).1 true,
          .Initialize (atShapeToTopology w s msg).1 true,
          .SetCoarsePositions s.verts okS, .Refine 8 false] ∧
      (createOsdMesh w f g msg).result = some false) ∨
    (∃ a x s okS okQ okP, readShape w f = .returned a x s ∧
      (atShapeToTopology w s msg).2.ok = true ∧
      (createOsdMesh w f g msg).trace =
        [.readShape f, .shapeToTopology s (atShapeToTopology w s msg).1 true,
          .Initialize (atShapeToTopology w s msg).1 true,
          .SetCoarsePositions s.verts okS, .Refine 8 true,
          .GetRefinedQuads okQ, .GetRefinedPositions okP] ∧
      (createOsdMesh w f g msg).result = some true) := by
  cases hread : readShape w f with
  | exited c o =>
    left
    rw [run_exited w f g msg hread]
    exact ⟨rfl, rfl⟩
  | aborted =>
    left
    simp [createOsdMesh, hread]
  | overrun =>
    left
    simp [createOsdMesh, hread]
  | returned a x s =>
    right
    cases hv : (atShapeToTopology w s msg).2.ok with
    | false =>
      left
      refine ⟨a, x, s, rfl, hv, ?_⟩
      rw [run_invalid w f g msg hread hv]
      exact ⟨rfl, rfl⟩
    | true =>
      right
      cases hi : (atInitialize w s msg).ok with
      | false =>
        left
        refine ⟨a, x, s, rfl, hv, ?_⟩
        rw [run_initFailed w f g msg hread hv hi]
        exact ⟨rfl, rfl⟩
      | true =>
        right
        cases hr : (atRefine w s msg).ok with
        | false =>
          left
          refine ⟨a, x, s, (atSetCoarsePositions w s msg).ok, rfl, hv, ?_⟩
          rw [run_refineFailed w f g msg hread hv hi hr]
          exact ⟨rfl, rfl⟩
        | true =>
          right
          have h := run_refined w f g msg hread hv hi hr
          exact ⟨a, x, s, _, _, _, rfl, hv, h.1, h.2.1⟩

/-- What an execution that reaches the end prints. -/
theorem run_refined_out {a : List Nat} {x : Int} {s : shape}
    (hread : readShape w f = .returned a x s)
    (hv : (atShapeToTopology w s msg).2.ok = true)
    (hi : (atInitialize w s msg).ok = true)
    (hr : (atRefine w s msg).ok = true) :
    (createOsdMesh w f g msg).out =
      report (atShapeToTopology w s msg).2.errors ++
        report (atInitialize w s msg).errors ++
        report (atSetCoarsePositions w s msg).errors ++
        report (atRefine w s msg).errors ++
        report (atGetRefinedQuads w s msg).errors ++
        (if (atGetRefinedQuads w s msg).ok then []
          else [.str "GetRefinedQuads failed with ", .ptr, .endl]) ++
        report (atGetRefinedPositions w s msg).errors ++
        (if (atGetRefinedPositions w s msg).ok then []
          else [.str "GetRefinedPositions failed with ", .ptr, .endl]) ++
        [.str "Quads = ", .nat ((atGetRefinedQuads w s msg).value.length / 4), .endl] ++
        printQuads (atGetRefinedQuads w s msg).value 0 ++
        [.str "Hot damn, it worked.\n"] ++
        [.str "Positions = ", .int ((atGetRefinedPositions w s msg).value.2.tdiv 3), .endl] ++
        (printPositions (atGetRefinedPositions w s msg).value.1
          (atGetRefinedPositions w s msg).value.2 0).1 := by
  simp only [atShapeToTopology, atInitialize, atSetCoarsePositions, atRefine] at hv hi hr
  simp only [createOsdMesh, hread, atShapeToTopology, atInitialize, atSetCoarsePositions,
    atRefine, atGetRefinedQuads, atGetRefinedPositions, hv, hi, hr, Bool.not_true,
    Bool.false_eq_true, if_false]
  split <;> split <;> simp_all

end Paths

/-- The position loop entered at a multiple of 3 below a bound that is a
multiple of 3: it prints one triple for each remaining `k` and reads the
remaining indices in increasing order. -/
theorem printPositions_from (buf : List FloatBits) (m : Nat) :
    ∀ d j : Nat, j + d = m →
      printPositions buf ((3 * m : Nat) : Int) ((3 * j : Nat) : Int) =
        ((List.range' j d).flatMap fun k =>
            triple (buf.getD (3 * k) 0) (buf.getD (3 * k + 1) 0) (buf.getD (3 * k + 2) 0),
         (List.range' (3 * j) (3 * d)).map fun k : Nat => (k : Int)) := by
  intro d
  induction d with
  | zero =>
    intro j hj
    have hjm : j = m := by omega
    subst hjm
    rw [printPositions]
    simp
  | succ d ih =>
    intro j hj
    have hlt : ((3 * j : Nat) : Int) < ((3 * m : Nat) : Int) := by omega
    have hnext : ((3 * j : Nat) : Int) + 3 = ((3 * (j + 1) : Nat) : Int) := by omega
    have h0 : (((3 * j : Nat) : Int)).toNat = 3 * j := by omega
    have h1 : (((3 * j : Nat) : Int) + 1).toNat = 3 * j + 1 := by omega
    have h2 : (((3 * j : Nat) : Int) + 2).toNat = 3 * j + 2 := by omega
    have hr : List.range' (3 * j) (3 * (d + 1)) =
        (3 * j) :: (3 * j + 1) :: (3 * j + 2) :: List.range' (3 * (j + 1)) (3 * d) := by
      have : 3 * (d + 1) = (3 * d + 1 + 1) + 1 := by ring
      rw [this]
      simp only [List.range'_succ]
      have e : 3 * j + 1 + 1 + 1 = 3 * (j + 1) := by ring
      rw [e]
    rw [printPositions, if_pos hlt, hnext, ih (j + 1) (by omega), hr, h0, h1, h2]
    simp only [List.range'_succ, List.flatMap_cons, List.map_cons, triple, List.cons_append,
      List.nil_append, Nat.cast_add, Nat.cast_one, Nat.cast_ofNat]

/-! ### The claims -/

/-- C3: `shapeToTopology` stores the shape's vertex count in
`output.numVertices`, its per-face vertex counts in `output.nverts` and its
flat face-vertex indices in `output.indices`, stores 3 in `output.maxLevels`
whatever the input, and returns what `IsValid` returns on the topology so
built. -/
theorem shapeToTopology_builds_and_validates {σ : Type} (w : World σ) (input : shape)
    (output : PxOsdUtilSubdivTopology) (errorMessage : String) :
    (shapeToTopology w input output errorMessage).1.numVertices = input.getNverts ∧
    (shapeToTopology w input output errorMessage).1.nverts = input.nvertsPerFace ∧
    (shapeToTopology w input output errorMessage).1.indices = input.faceverts ∧
    (shapeToTopology w input output errorMessage).1.maxLevels = 3 ∧
    (shapeToTopology w input output errorMessage).2.ok =
      (w.IsValid (shapeToTopology w input output errorMessage).1 errorMessage).ok ∧
    (shapeToTopology w input output errorMessage).2.errorMessage =
      (w.IsValid (shapeToTopology w input output errorMessage).1 errorMessage).errorMessage :=
  ⟨rfl, rfl, rfl, rfl, rfl, rfl⟩

/-- C1: in an execution of `createOsdMesh` in which the validation of the
topology, `Initialize` and `Refine` all return true, the calls made are, in
this order and once each: `readShape`, `shapeToTopology` on the shape read,
`Initialize` on the topology built, `SetCoarsePositions` on the vertices of
the shape read, `Refine`, `GetRefinedQuads`, `GetRefinedPositions`.  In every
execution, a call of `Refine` passes the thread count 8. -/
theorem createOsdMesh_call_sequence {σ : Type} (w : World σ) (f g msg : String) :
    (((∃ s t, Event.shapeToTopology s t true ∈ (createOsdMesh w f g msg).trace) ∧
       (∃ t, Event.Initialize t true ∈ (createOsdMesh w f g msg).trace) ∧
       (∃ n, Event.Refine n true ∈ (createOsdMesh w f g msg).trace)) →
      ∃ a x s okS okQ okP, readShape w f = .returned a x s ∧
        (createOsdMesh w f g msg).trace =
          [.readShape f,
           .shapeToTopology s (shapeToTopology w s w.newTopology msg).1 true,
           .Initialize (shapeToTopology w s w.newTopology msg).1 true,
           .SetCoarsePositions s.verts okS,
           .Refine 8 true,
           .GetRefinedQuads okQ,
           .GetRefinedPositions okP]) ∧
    (∀ n ok, Event.Refine n ok ∈ (createOsdMesh w f g msg).trace → n = 8) := by
  rcases trace_shapes w f g msg with h | ⟨a, x, s, hr, -, h, -⟩ | ⟨a, x, s, hr, -, h, -⟩ |
    ⟨a, x, s, okS, hr, -, h, -⟩ | ⟨a, x, s, okS, okQ, okP, hr, -, h, -⟩
  · rw [h.1]; simp
  · rw [h]; simp
  · rw [h]; simp
  · rw [h]; simp
  · rw [h]
    refine ⟨fun _ => ⟨a, x, s, okS, okQ, okP, hr, rfl⟩, ?_⟩
    simp

/-- C2: when `IsValid` returns false on the topology that `shapeToTopology`
built from the shape read, `createOsdMesh` returns false and calls no method of
the evaluator; and in every execution, a call of `Initialize` passes a
topology on which `IsValid` returned true. -/
theorem invalid_topology_reaches_no_evaluator {σ : Type} (w : World σ) (f g msg : String) :
    (∀ a x s, readShape w f = .returned a x s →
      (w.IsValid (shapeToTopology w s w.newTopology msg).1 msg).ok = false →
      (createOsdMesh w f g msg).result = some false ∧
        ∀ e ∈ (createOsdMesh w f g msg).trace, e.isEvaluatorOp = false) ∧
    (∀ t ok, Event.Initialize t ok ∈ (createOsdMesh w f g msg).trace →
      (w.IsValid t msg).ok = true) := by
  constructor
  · intro a x s hread hv
    have hv' : (atShapeToTopology w s msg).2.ok = false := hv
    rw [run_invalid w f g msg hread hv']
    simp [Event.isEvaluatorOp]
  · intro t ok
    rcases trace_shapes w f g msg with h | ⟨a, x, s, -, -, h, -⟩ | ⟨a, x, s, -, hv, h, -⟩ |
      ⟨a, x, s, okS, -, hv, h, -⟩ | ⟨a, x, s, okS, okQ, okP, -, hv, h, -⟩
    · rw [h.1]; simp
    · rw [h]; simp
    · rw [h]; simp
      rintro rfl -
      exact hv
    · rw [h]; simp
      rintro rfl -
      exact hv
    · rw [h]; simp
      rintro rfl -
      exact hv

/-- C4, as amended: in every execution of `createOsdMesh`, a call of `Refine`
comes directly after the call of `SetCoarsePositions` on the vertices of the
shape read, which comes directly after a call of `Initialize` that returned
true; the `bool` that `SetCoarsePositions` returned is not looked at, so every
call of `SetCoarsePositions`, failed or not, is directly followed by
`Refine(8)`. -/
theorem refine_follows_setCoarsePositions {σ : Type} (w : World σ) (f g msg : String) :
    (∀ n ok, Event.Refine n ok ∈ (createOsdMesh w f g msg).trace →
      ∃ a x s okS, readShape w f = .returned a x s ∧
        [Event.Initialize (shapeToTopology w s w.newTopology msg).1 true,
          Event.SetCoarsePositions s.verts okS, Event.Refine n ok] <:+:
          (createOsdMesh w f g msg).trace) ∧
    (∀ v okS, Event.SetCoarsePositions v okS ∈ (createOsdMesh w f g msg).trace →
      ∃ ok, [Event.SetCoarsePositions v okS, Event.Refine 8 ok] <:+:
        (createOsdMesh w f g msg).trace) := by
  rcases trace_shapes w f g msg with h | ⟨a, x, s, -, -, h, -⟩ | ⟨a, x, s, -, -, h, -⟩ |
    ⟨a, x, s, okS, hread, -, h, -⟩ | ⟨a, x, s, okS, okQ, okP, hread, -, h, -⟩
  · rw [h.1]; simp
  · rw [h]; simp
  · rw [h]; simp
  · rw [h]
    constructor
    · intro n ok hmem
      simp at hmem
      obtain ⟨rfl, rfl⟩ := hmem
      exact ⟨a, x, s, okS, hread, [.readShape f, .shapeToTopology s _ true], [], rfl⟩
    · intro v okS' hmem
      simp at hmem
      obtain ⟨rfl, rfl⟩ := hmem
      exact ⟨false, [.readShape f, .shapeToTopology s _ true, .Initialize _ true], [], rfl⟩
  · rw [h]
    constructor
    · intro n ok hmem
      simp at hmem
      obtain ⟨rfl, rfl⟩ := hmem
      exact ⟨a, x, s, okS, hread, [.readShape f, .shapeToTopology s _ true],
        [.GetRefinedQuads okQ, .GetRefinedPositions okP], rfl⟩
    · intro v okS' hmem
      simp at hmem
      obtain ⟨rfl, rfl⟩ := hmem
      exact ⟨true, [.readShape f, .shapeToTopology s _ true, .Initialize _ true],
        [.GetRefinedQuads okQ, .GetRefinedPositions okP], rfl⟩

/-- C5: in every execution of `createOsdMesh`, a call of `GetRefinedQuads` or
`GetRefinedPositions` is made only after a call of `Refine` that returned true;
and when a call of `Initialize` or of `Refine` returned false, neither
retrieval method is called. -/
theorem retrieval_only_after_refine {σ : Type} (w : World σ) (f g msg : String) :
    (∀ i e, (createOsdMesh w f g msg).trace[i]? = some e → e.isRetrieval = true →
      Event.Refine 8 true ∈ (createOsdMesh w f g msg).trace.take i) ∧
    (((∃ t, Event.Initialize t false ∈ (createOsdMesh w f g msg).trace) ∨
        (∃ n, Event.Refine n false ∈ (createOsdMesh w f g msg).trace)) →
      ∀ e ∈ (createOsdMesh w f g msg).trace, e.isRetrieval = false) := by
  rcases trace_shapes w f g msg with h | ⟨a, x, s, -, -, h, -⟩ | ⟨a, x, s, -, -, h, -⟩ |
    ⟨a, x, s, okS, -, -, h, -⟩ | ⟨a, x, s, okS, okQ, okP, -, -, h, -⟩
  · rw [h.1]
    refine ⟨?_, by simp [Event.isRetrieval]⟩
    intro i e hi he
    rcases i with _ | i <;> simp at hi
    subst hi; simp [Event.isRetrieval] at he
  · rw [h]
    refine ⟨?_, by simp [Event.isRetrieval]⟩
    intro i e hi he
    rcases i with _ | _ | i <;> simp at hi <;> subst hi <;> simp [Event.isRetrieval] at he
  · rw [h]
    refine ⟨?_, by simp [Event.isRetrieval]⟩
    intro i e hi he
    rcases i with _ | _ | _ | i <;> simp at hi <;> subst hi <;>
      simp [Event.isRetrieval] at he
  · rw [h]
    refine ⟨?_, by simp [Event.isRetrieval]⟩
    intro i e hi he
    rcases i with _ | _ | _ | _ | _ | i <;> simp at hi <;> subst hi <;>
      simp [Event.isRetrieval] at he
  · rw [h]
    refine ⟨?_, by simp⟩
    intro i e hi he
    rcases i with _ | _ | _ | _ | _ | _ | _ | i <;> simp at hi <;> subst hi <;>
      simp [Event.isRetrieval] at he ⊢

/-- C10: when the file is read, the value `createOsdMesh` returns is the
conjunction of the three `bool`s returned by the validation of the topology,
by `Initialize` and by `Refine`: it is true exactly when all three are, and
what `SetCoarsePositions`, `GetRefinedQuads` and `GetRefinedPositions` return
has no part in it. -/
theorem createOsdMesh_result {σ : Type} (w : World σ) (f g msg : String)
    (a : List Nat) (x : Int) (s : shape) (hread : readShape w f = .returned a x s) :
    (createOsdMesh w f g msg).result =
        some ((atShapeToTopology w s msg).2.ok && (atInitialize w s msg).ok &&
          (atRefine w s msg).ok) ∧
    ((createOsdMesh w f g msg).result = some true ↔
      (atShapeToTopology w s msg).2.ok = true ∧ (atInitialize w s msg).ok = true ∧
        (atRefine w s msg).ok = true) := by
  cases hv : (atShapeToTopology w s msg).2.ok with
  | false => rw [run_invalid w f g msg hread hv]; simp
  | true =>
    cases hi : (atInitialize w s msg).ok with
    | false => rw [run_initFailed w f g msg hread hv hi]; simp
    | true =>
      cases hr : (atRefine w s msg).ok with
      | false => rw [run_refineFailed w f g msg hread hv hi hr]; simp
      | true => simp [(run_refined w f g msg hread hv hi hr).2.1]

/-- Rendering commutes with concatenation, at the level of characters. -/
theorem render_data_append (sf : FloatBits → String) (sp : String) (l₁ l₂ : List Tok) :
    (render sf sp (l₁ ++ l₂)).data = (render sf sp l₁).data ++ (render sf sp l₂).data := by
  simp [render, String.data_join]

/-- The text of a run of tokens occurs in the text of any output containing
the run. -/
theorem occursIn_render (sf : FloatBits → String) (sp : String) (pre l post : List Tok) :
    occursIn (render sf sp l) (render sf sp (pre ++ l ++ post)) := by
  unfold occursIn
  rw [render_data_append, render_data_append]
  exact ⟨_, _, rfl⟩

/-- A string that is printed occurs in the text printed. -/
theorem occursIn_of_mem (sf : FloatBits → String) (sp : String) (str : String)
    (out : List Tok) (h : Tok.str str ∈ out) : occursIn str (render sf sp out) := by
  obtain ⟨pre, post, rfl⟩ := List.append_of_mem h
  have e : str = render sf sp [.str str] := by
    apply String.ext; simp [render, String.data_join, Tok.text]
  have := occursIn_render sf sp pre [.str str] post
  rw [← e] at this
  simpa using this

/-- The text of the line `main` prints for a failed `createOsdMesh`. -/
theorem render_failed (sf : FloatBits → String) (sp : String) (m : String) :
    render sf sp [.str "Failed with error: ", .str m, .endl] =
      "Failed with error: " ++ m ++ "\n" := by
  apply String.ext
  simp [render, String.data_join, Tok.text]

/-- What `main` prints when `createOsdMesh` returns false. -/
theorem main_out_failed {σ : Type} (w : World σ) (prog f g : String) (rest : List String)
    (h : (createOsdMesh w f g "").result = some false) :
    (main w (prog :: f :: g :: rest)).out =
      ([.str "input is ", .str f, .str " and output is ", .str g, .endl] ++
        (createOsdMesh w f g "").out) ++
        [.str "Failed with error: ", .str (createOsdMesh w f g "").errorMessage, .endl] ++
        [] := by
  simp [main, h]

/-- What `main` prints when `createOsdMesh` returns true or does not return. -/
theorem main_out_other {σ : Type} (w : World σ) (prog f g : String) (rest : List String)
    (h : (createOsdMesh w f g "").result ≠ some false) :
    (main w (prog :: f :: g :: rest)).out =
      [.str "input is ", .str f, .str " and output is ", .str g, .endl] ++
        (createOsdMesh w f g "").out := by
  unfold main
  cases hres : (createOsdMesh w f g "").result with
  | none => simp [hres]
  | some b =>
    cases b with
    | true => simp [hres]
    | false => exact absurd hres h

/-- What `readShape` does, by what the C library and the allocator do.  The
two cases with a diagnostic and the case with `parseShape` are stated for an
`ftell` that succeeded, so that `size+1` does not wrap around. -/
theorem readShape_outcomes {σ : Type} (w : World σ) (fname : String) :
    (w.fopen fname = none →
      readShape w fname =
        .exited 0 [.str "Could not open \"", .str fname, .str "\" - aborting.\n"]) ∧
    (∀ handle, w.fopen fname = some handle →
      w.newChar (((handle.ftell % (sizeRange : Int)).toNat + 1) % sizeRange) = false →
      readShape w fname = .aborted) ∧
    (∀ handle, w.fopen fname = some handle →
      0 ≤ handle.ftell → handle.ftell < 9223372036854775808 →
      w.newChar (handle.ftell.toNat + 1) = true →
      ((fread handle handle.ftell.toNat).1 ≠ 1 →
        readShape w fname =
          .exited 0 [.str "Error reading \"", .str fname, .str "\" - aborting.\n"]) ∧
      ((fread handle handle.ftell.toNat).1 = 1 →
        readShape w fname =
          .returned (handle.bytes.take handle.ftell.toNat ++ [0]) 1
            (w.parseShape (handle.bytes.take handle.ftell.toNat ++ [0]) 1))) := by
  refine ⟨?_, ?_, ?_⟩
  · intro h
    simp [readShape, h]
  · intro handle h hnew
    simp [readShape, h, hnew]
  · intro handle h h0 hlt hnew
    have hsize : (handle.ftell % (sizeRange : Int)).toNat = handle.ftell.toNat := by
      unfold sizeRange
      omega
    have hlen : (handle.ftell.toNat + 1) % sizeRange = handle.ftell.toNat + 1 := by
      unfold sizeRange
      omega
    have hfit : (fread handle handle.ftell.toNat).2.length ≤ handle.ftell.toNat + 1 := by
      unfold fread
      split
      · simp
      · split
        · simp
        · simp; omega
    constructor
    · intro hne
      simp [readShape, h, hsize, hlen, hnew, hne, Nat.not_lt.mpr hfit]
    · intro h1
      have hbytes : (fread handle handle.ftell.toNat).2 =
          handle.bytes.take handle.ftell.toNat := by
        unfold fread at h1 ⊢
        by_cases hz : handle.ftell.toNat = 0
        · simp [hz] at h1
        · by_cases hle : handle.ftell.toNat ≤ handle.bytes.length
          · simp [hz, hle]
          · simp [hz, hle] at h1
      simp [readShape, h, hsize, hlen, hnew, h1, Nat.not_lt.mpr hfit, hbytes]

/-- C8: for a count `numFloats` that is a non-negative multiple of 3 and a
buffer of exactly `numFloats` floats, the position loop of `createOsdMesh`
reads the indices 0, 1, ..., `numFloats - 1`, each once and in this order,
all of them inside the buffer, and prints `numFloats / 3` triples; in an
execution where `GetRefinedPositions` leaves that buffer and that count, the
number printed after `Positions = ` is this number of triples. -/
theorem position_loop_stride3 (buf : List FloatBits) (numFloats : Int)
    (h0 : 0 ≤ numFloats) (h3 : 3 ∣ numFloats) (hlen : (buf.length : Int) = numFloats) :
    ((buf.length / 3 : Nat) : Int) = numFloats / 3 ∧
    (printPositions buf numFloats 0).2 = (List.range buf.length).map (fun k : Nat => (k : Int)) ∧
    (∀ i ∈ (printPositions buf numFloats 0).2, 0 ≤ i ∧ i < numFloats) ∧
    (printPositions buf numFloats 0).1 =
      (List.range (buf.length / 3)).flatMap (fun k =>
        triple (buf.getD (3 * k) 0) (buf.getD (3 * k + 1) 0) (buf.getD (3 * k + 2) 0)) ∧
    (∀ (σ : Type) (w : World σ) (f g msg : String) (a : List Nat) (x : Int) (s : shape),
      readShape w f = .returned a x s →
      (atShapeToTopology w s msg).2.ok = true →
      (atInitialize w s msg).ok = true →
      (atRefine w s msg).ok = true →
      (atGetRefinedPositions w s msg).value = (buf, numFloats) →
      (createOsdMesh w f g msg).posReads =
          (List.range buf.length).map (fun k : Nat => (k : Int)) ∧
        ∃ pre, (createOsdMesh w f g msg).out =
          pre ++ [.str "Positions = ", .int ((buf.length / 3 : Nat) : Int), .endl] ++
            (List.range (buf.length / 3)).flatMap (fun k =>
              triple (buf.getD (3 * k) 0) (buf.getD (3 * k + 1) 0)
                (buf.getD (3 * k + 2) 0))) := by
  obtain ⟨m, hm⟩ : ∃ m : Nat, buf.length = 3 * m := by
    obtain ⟨c, hc⟩ := h3
    exact ⟨c.toNat, by omega⟩
  have hnf : numFloats = ((3 * m : Nat) : Int) := by omega
  have hloop := printPositions_from buf m m 0 (by omega)
  have hdiv : buf.length / 3 = m := by omega
  have hzero : (0 : Int) = ((3 * 0 : Nat) : Int) := by simp
  have hrun : printPositions buf numFloats 0 =
      ((List.range (buf.length / 3)).flatMap (fun k =>
          triple (buf.getD (3 * k) 0) (buf.getD (3 * k + 1) 0) (buf.getD (3 * k + 2) 0)),
        (List.range buf.length).map (fun k : Nat => (k : Int))) := by
    rw [hnf, hzero, hloop, hdiv, hm, List.range_eq_range', List.range_eq_range']
  have htdiv : numFloats.tdiv 3 = ((buf.length / 3 : Nat) : Int) := by
    rw [Int.tdiv_eq_ediv h0 (by decide)]
    omega
  refine ⟨by omega, by rw [hrun], ?_, by rw [hrun], ?_⟩
  · intro i hi
    rw [hrun] at hi
    simp only [List.mem_map, List.mem_range] at hi
    obtain ⟨k, hk, rfl⟩ := hi
    omega
  · intro σ w f g msg a x s hread hv hi hr hpos
    have hp := (run_refined w f g msg hread hv hi hr).2.2.2
    have ho := run_refined_out w f g msg hread hv hi hr
    rw [hpos] at hp ho
    simp only at hp ho
    rw [hrun] at hp ho
    rw [htdiv] at ho
    exact ⟨hp, _, ho⟩

/-- C6, as amended: when the validation of the topology, `Initialize` or
`Refine` fails, the text the program prints contains `Failed with error: `
followed by the reason the failing call left in `errorMessage` and a newline;
when `GetRefinedQuads` or `GetRefinedPositions` fails, the text contains the
name of the method followed by ` failed with `. -/
theorem failure_report {σ : Type} (w : World σ) (prog f g : String) (rest : List String)
    (a : List Nat) (x : Int) (s : shape) (hread : readShape w f = .returned a x s)
    (sf : FloatBits → String) (sp : String) :
    ((atShapeToTopology w s "").2.ok = false →
      occursIn ("Failed with error: " ++ (atShapeToTopology w s "").2.errorMessage ++ "\n")
        (render sf sp (main w (prog :: f :: g :: rest)).out)) ∧
    ((atShapeToTopology w s "").2.ok = true → (atInitialize w s "").ok = false →
      occursIn ("Failed with error: " ++ (atInitialize w s "").errorMessage ++ "\n")
        (render sf sp (main w (prog :: f :: g :: rest)).out)) ∧
    ((atShapeToTopology w s "").2.ok = true → (atInitialize w s "").ok = true →
      (atRefine w s "").ok = false →
      occursIn ("Failed with error: " ++ (atRefine w s "").errorMessage ++ "\n")
        (render sf sp (main w (prog :: f :: g :: rest)).out)) ∧
    ((atShapeToTopology w s "").2.ok = true → (atInitialize w s "").ok = true →
      (atRefine w s "").ok = true → (atGetRefinedQuads w s "").ok = false →
      occursIn "GetRefinedQuads failed with "
        (render sf sp (main w (prog :: f :: g :: rest)).out)) ∧
    ((atShapeToTopology w s "").2.ok = true → (atInitialize w s "").ok = true →
      (atRefine w s "").ok = true → (atGetRefinedPositions w s "").ok = false →
      occursIn "GetRefinedPositions failed with "
        (render sf sp (main w (prog :: f :: g :: rest)).out)) := by
  refine ⟨?_, ?_, ?_, ?_, ?_⟩
  · intro hv
    have hrun := run_invalid w f g "" hread hv
    rw [main_out_failed w prog f g rest (by rw [hrun]), ← render_failed sf sp, hrun]
    exact occursIn_render sf sp _ _ _
  · intro hv hi
    have hrun := run_initFailed w f g "" hread hv hi
    rw [main_out_failed w prog f g rest (by rw [hrun]), ← render_failed sf sp, hrun]
    exact occursIn_render sf sp _ _ _
  · intro hv hi hr
    have hrun := run_refineFailed w f g "" hread hv hi hr
    rw [main_out_failed w prog f g rest (by rw [hrun]), ← render_failed sf sp, hrun]
    exact occursIn_render sf sp _ _ _
  · intro hv hi hr hq
    have hres := (run_refined w f g "" hread hv hi hr).2.1
    have hout := run_refined_out w f g "" hread hv hi hr
    rw [main_out_other w prog f g rest (by rw [hres]; simp), hout, hq]
    apply occursIn_of_mem
    simp
  · intro hv hi hr hp
    have hres := (run_refined w f g "" hread hv hi hr).2.1
    have hout := run_refined_out w f g "" hread hv hi hr
    rw [main_out_other w prog f g rest (by rw [hres]; simp), hout, hp]
    apply occursIn_of_mem
    simp

/-! ### Concrete executions -/

section Concrete

open Sample

set_option maxRecDepth 100000

/-- C1 at `quad.obj` in the sample world. -/
theorem createOsdMesh_call_sequence_witness :
    ((∃ s t, Event.shapeToTopology s t true ∈ (createOsdMesh world "quad.obj" "out" "").trace) ∧
      (∃ t, Event.Initialize t true ∈ (createOsdMesh world "quad.obj" "out" "").trace) ∧
      (∃ n, Event.Refine n true ∈ (createOsdMesh world "quad.obj" "out" "").trace)) ∧
    (∃ a x s okS okQ okP, readShape world "quad.obj" = .returned a x s ∧
      (createOsdMesh world "quad.obj" "out" "").trace =
        [.readShape "quad.obj",
         .shapeToTopology s (shapeToTopology world s world.newTopology "").1 true,
         .Initialize (shapeToTopology world s world.newTopology "").1 true,
         .SetCoarsePositions s.verts okS,
         .Refine 8 true,
         .GetRefinedQuads okQ,
         .GetRefinedPositions okP]) ∧
    (8 : Int) = 8 :=
  have h : (∃ s t, Event.shapeToTopology s t true ∈
        (createOsdMesh world "quad.obj" "out" "").trace) ∧
      (∃ t, Event.Initialize t true ∈ (createOsdMesh world "quad.obj" "out" "").trace) ∧
      (∃ n, Event.Refine n true ∈ (createOsdMesh world "quad.obj" "out" "").trace) :=
    ⟨⟨quad, quadTopology, by decide⟩, ⟨quadTopology, by decide⟩, ⟨8, by decide⟩⟩
  ⟨h, (createOsdMesh_call_sequence world "quad.obj" "out" "").1 h,
    (createOsdMesh_call_sequence world "quad.obj" "out" "").2 8 true (by decide)⟩

/-- C2 at `quad.obj`, with an `IsValid` that rejects the topology for the
first part and the sample `IsValid` for the second. -/
theorem invalid_topology_reaches_no_evaluator_witness :
    (readShape worldInvalid "quad.obj" = .returned [118, 10, 0] 1 quad ∧
      (worldInvalid.IsValid (shapeToTopology worldInvalid quad worldInvalid.newTopology "").1
        "").ok = false ∧
      (createOsdMesh worldInvalid "quad.obj" "out" "").result = some false ∧
      ∀ e ∈ (createOsdMesh worldInvalid "quad.obj" "out" "").trace,
        e.isEvaluatorOp = false) ∧
    (Event.Initialize quadTopology true ∈ (createOsdMesh world "quad.obj" "out" "").trace ∧
      (world.IsValid quadTopology "").ok = true) :=
  ⟨⟨by decide, by decide,
      (invalid_topology_reaches_no_evaluator worldInvalid "quad.obj" "out" "").1
        [118, 10, 0] 1 quad (by decide) (by decide)⟩,
    by decide,
    (invalid_topology_reaches_no_evaluator world "quad.obj" "out" "").2
      quadTopology true (by decide)⟩

/-- C4 refuted at `short.obj` in the sample world: `SetCoarsePositions` fails,
since five floats are not three for the one vertex, and `Refine(8)` is called
next. -/
theorem refine_called_after_failed_setCoarsePositions :
    (createOsdMesh world "short.obj" "out" "").trace =
      [.readShape "short.obj",
       .shapeToTopology short shortTopology true,
       .Initialize shortTopology true,
       .SetCoarsePositions [0, 0, 0, 1065353216, 0] false,
       .Refine 8 false] := by
  decide

/-- C4, as amended, at `short.obj` in the sample world. -/
theorem refine_follows_setCoarsePositions_witness :
    (Event.Refine 8 false ∈ (createOsdMesh world "short.obj" "out" "").trace ∧
      ∃ a x s okS, readShape world "short.obj" = .returned a x s ∧
        [Event.Initialize (shapeToTopology world s world.newTopology "").1 true,
          Event.SetCoarsePositions s.verts okS, Event.Refine 8 false] <:+:
          (createOsdMesh world "short.obj" "out" "").trace) ∧
    (Event.SetCoarsePositions short.verts false ∈
        (createOsdMesh world "short.obj" "out" "").trace ∧
      ∃ ok, [Event.SetCoarsePositions short.verts false, Event.Refine 8 ok] <:+:
        (createOsdMesh world "short.obj" "out" "").trace) :=
  ⟨⟨by decide,
      (refine_follows_setCoarsePositions world "short.obj" "out" "").1 8 false (by decide)⟩,
    by decide,
    (refine_follows_setCoarsePositions world "short.obj" "out" "").2 short.verts false
      (by decide)⟩

/-- C5 at `quad.obj`: in the sample world for a retrieval call, and with an
`Initialize` that fails for the absence of retrieval calls. -/
theorem retrieval_only_after_refine_witness :
    ((createOsdMesh world "quad.obj" "out" "").trace[5]? = some (.GetRefinedQuads true) ∧
      (Event.GetRefinedQuads true).isRetrieval = true ∧
      Event.Refine 8 true ∈ (createOsdMesh world "quad.obj" "out" "").trace.take 5) ∧
    (Event.Initialize quadTopology false ∈
        (createOsdMesh worldInitializeFails "quad.obj" "out" "").trace ∧
      ∀ e ∈ (createOsdMesh worldInitializeFails "quad.obj" "out" "").trace,
        e.isRetrieval = false) :=
  ⟨⟨by decide, by decide,
      (retrieval_only_after_refine world "quad.obj" "out" "").1 5 (.GetRefinedQuads true)
        (by decide) (by decide)⟩,
    by decide,
    (retrieval_only_after_refine worldInitializeFails "quad.obj" "out" "").2
      (Or.inl ⟨quadTopology, by decide⟩)⟩

/-- C10 at `quad.obj` in the world where `SetCoarsePositions`,
`GetRefinedQuads` and `GetRefinedPositions` all fail: the value returned is
true. -/
theorem createOsdMesh_result_witness :
    readShape worldLenient "quad.obj" = .returned [118, 10, 0] 1 quad ∧
    (atSetCoarsePositions worldLenient quad "").ok = false ∧
    (atGetRefinedQuads worldLenient quad "").ok = false ∧
    (atGetRefinedPositions worldLenient quad "").ok = false ∧
    (createOsdMesh worldLenient "quad.obj" "out" "").result = some true :=
  ⟨by decide, by decide, by decide, by decide,
    ((createOsdMesh_result worldLenient "quad.obj" "out" "" [118, 10, 0] 1 quad
      (by decide)).2).2 ⟨by decide, by decide, by decide⟩⟩

/-- The empty quad loop prints nothing. -/
theorem printQuads_nil : printQuads [] 0 = [] := by
  rw [printQuads]; simp

/-- The position loop on the six sample floats. -/
theorem printPositions_sample :
    printPositions positions 6 0 =
      (triple 0 0 0 ++ triple 1056964608 0 0, [0, 1, 2, 3, 4, 5]) := by
  have h := printPositions_from positions 2 2 0 (by decide)
  simpa [positions, triple, List.range'_succ] using h

/-- What the program prints at `quad.obj` when `GetRefinedQuads` fails. -/
theorem worldQuadsFail_out :
    (main worldQuadsFail ["projectTest", "quad.obj", "out"]).out =
      [.str "input is ", .str "quad.obj", .str " and output is ", .str "out", .endl,
       .str "GetRefinedQuads failed with ", .ptr, .endl,
       .str "Quads = ", .nat 0, .endl,
       .str "Hot damn, it worked.\n",
       .str "Positions = ", .int 2, .endl] ++
      (triple 0 0 0 ++ triple 1056964608 0 0) := by
  have hread : readShape worldQuadsFail "quad.obj" = .returned [118, 10, 0] 1 quad := by
    decide
  have hv : (atShapeToTopology worldQuadsFail quad "").2.ok = true := by decide
  have hi : (atInitialize worldQuadsFail quad "").ok = true := by decide
  have hr : (atRefine worldQuadsFail quad "").ok = true := by decide
  have hq : atGetRefinedQuads worldQuadsFail quad "" =
      ⟨false, "quads not ready", ⟨3, 4⟩, [], []⟩ := rfl
  have hp : atGetRefinedPositions worldQuadsFail quad "" =
      ⟨true, "quads not ready", ⟨3, 4⟩, (positions, 6), []⟩ := rfl
  have hres := (run_refined worldQuadsFail "quad.obj" "out" "" hread hv hi hr).2.1
  rw [main_out_other worldQuadsFail "projectTest" "quad.obj" "out" [] (by rw [hres]; simp),
    run_refined_out worldQuadsFail "quad.obj" "out" "" hread hv hi hr, hq, hp]
  simp only [printQuads_nil, printPositions_sample]
  decide

/-- The other files of the sample world: `quad.obj` is read and parsed; the
empty file, and the attribute file of which `ftell` reports more bytes than
can be read, give the diagnostic of a failed read; a missing file gives the
diagnostic of a failed open. -/
theorem readShape_samples :
    readShape world "quad.obj" = .returned [118, 10, 0] 1 quad ∧
    readShape world "empty.obj" =
      .exited 0 [.str "Error reading \"", .str "empty.obj", .str "\" - aborting.\n"] ∧
    readShape world "attr" =
      .exited 0 [.str "Error reading \"", .str "attr", .str "\" - aborting.\n"] ∧
    readShape world "nofile.obj" =
      .exited 0 [.str "Could not open \"", .str "nofile.obj", .str "\" - aborting.\n"] := by
  decide

/-- C7 fails on the code at the directory `meshes` of the sample world.  The
directory opens, no byte of it can be read (`fread` would return 0), `ftell`
reports 2^63 - 1, and the allocation of 2^63 bytes throws: `readShape` ends the
program before `fread` and without a diagnostic, so that the line of `main` is
all the program prints.  On the pipe `pipe`, where `ftell` returns -1, the
buffer has no byte and `fread` overruns it. -/
theorem readShape_directory_no_diagnostic :
    world.fopen "meshes" = some ⟨[], 9223372036854775807⟩ ∧
    (fread ⟨[], 9223372036854775807⟩ 9223372036854775807).1 = 0 ∧
    world.newChar 9223372036854775808 = false ∧
    readShape world "meshes" = .aborted ∧
    (createOsdMesh world "meshes" "out" "").trace = [.readShape "meshes"] ∧
    (createOsdMesh world "meshes" "out" "").result = none ∧
    (main world ["projectTest", "meshes", "out"]).out =
      [.str "input is ", .str "meshes", .str " and output is ", .str "out", .endl] ∧
    readShape world "pipe" = .overrun := by
  decide

/-- C8 for the six floats the sample evaluator hands out, and at `quad.obj` in
the sample world. -/
theorem position_loop_stride3_witness :
    ((0 : Int) ≤ 6 ∧ (3 : Int) ∣ 6 ∧ ((positions.length : Nat) : Int) = 6) ∧
    ((positions.length / 3 : Nat) : Int) = 6 / 3 ∧
    (printPositions positions 6 0).2 =
      (List.range positions.length).map (fun k : Nat => (k : Int)) ∧
    (∀ i ∈ (printPositions positions 6 0).2, 0 ≤ i ∧ i < 6) ∧
    (printPositions positions 6 0).1 =
      (List.range (positions.length / 3)).flatMap (fun k =>
        triple (positions.getD (3 * k) 0) (positions.getD (3 * k + 1) 0)
          (positions.getD (3 * k + 2) 0)) ∧
    (readShape world "quad.obj" = .returned [118, 10, 0] 1 quad ∧
      (atGetRefinedPositions world quad "").value = (positions, 6) ∧
      (createOsdMesh world "quad.obj" "out" "").posReads =
          (List.range positions.length).map (fun k : Nat => (k : Int)) ∧
        ∃ pre, (createOsdMesh world "quad.obj" "out" "").out =
          pre ++ [.str "Positions = ", .int ((positions.length / 3 : Nat) : Int), .endl] ++
            (List.range (positions.length / 3)).flatMap (fun k =>
              triple (positions.getD (3 * k) 0) (positions.getD (3 * k + 1) 0)
                (positions.getD (3 * k + 2) 0))) :=
  ⟨⟨by decide, by decide, by decide⟩,
    (position_loop_stride3 positions 6 (by decide) (by decide) (by decide)).1,
    (position_loop_stride3 positions 6 (by decide) (by decide) (by decide)).2.1,
    (position_loop_stride3 positions 6 (by decide) (by decide) (by decide)).2.2.1,
    (position_loop_stride3 positions 6 (by decide) (by decide) (by decide)).2.2.2.1,
    by decide, by decide,
    (position_loop_stride3 positions 6 (by decide) (by decide) (by decide)).2.2.2.2
      Evaluator world "quad.obj" "out" "" [118, 10, 0] 1 quad
      (by decide) (by decide) (by decide) (by decide) (by decide)⟩

/-- C6 refuted.  With an `Initialize` that fails with the reason `bad`, the
program prints the reason and not the name `Initialize`.  With a
`GetRefinedQuads` that fails with the reason `quads not ready`, the program
prints the name and, in place of the reason, the address held in
`errorMessage`. -/
theorem failure_text_lacks_name_or_reason :
    (Event.Initialize quadTopology false ∈
        (createOsdMesh worldInitializeFails "quad.obj" "out" "").trace ∧
      render showFloat showPtr (main worldInitializeFails ["projectTest", "quad.obj", "out"]).out
        = "input is quad.obj and output is out\nFailed with error: bad\n" ∧
      ¬ occursIn "Initialize"
        (render showFloat showPtr
          (main worldInitializeFails ["projectTest", "quad.obj", "out"]).out)) ∧
    (Event.GetRefinedQuads false ∈
        (createOsdMesh worldQuadsFail "quad.obj" "out" "").trace ∧
      (atGetRefinedQuads worldQuadsFail quad "").errorMessage = "quads not ready" ∧
      ¬ occursIn "quads not ready"
        (render showFloat showPtr
          (main worldQuadsFail ["projectTest", "quad.obj", "out"]).out)) := by
  refine ⟨⟨by decide, by decide, by decide⟩, by decide, by decide, ?_⟩
  rw [worldQuadsFail_out]
  decide

/-- C6, as amended, at one sample execution for each of the five calls that
can fail. -/
theorem failure_report_witness :
    (readShape worldInvalid "quad.obj" = .returned [118, 10, 0] 1 quad ∧
      (atShapeToTopology worldInvalid quad "").2.ok = false ∧
      occursIn
        ("Failed with error: " ++ (atShapeToTopology worldInvalid quad "").2.errorMessage ++
          "\n")
        (render showFloat showPtr
          (main worldInvalid ("projectTest" :: "quad.obj" :: "out" :: [])).out)) ∧
    (readShape worldInitializeFails "quad.obj" = .returned [118, 10, 0] 1 quad ∧
      (atInitialize worldInitializeFails quad "").ok = false ∧
      occursIn
        ("Failed with error: " ++ (atInitialize worldInitializeFails quad "").errorMessage ++
          "\n")
        (render showFloat showPtr
          (main worldInitializeFails ("projectTest" :: "quad.obj" :: "out" :: [])).out)) ∧
    (readShape world "short.obj" = .returned [118, 32, 10, 0] 1 short ∧
      (atRefine world short "").ok = false ∧
      occursIn ("Failed with error: " ++ (atRefine world short "").errorMessage ++ "\n")
        (render showFloat showPtr
          (main world ("projectTest" :: "short.obj" :: "out" :: [])).out)) ∧
    ((atGetRefinedQuads worldQuadsFail quad "").ok = false ∧
      occursIn "GetRefinedQuads failed with "
        (render showFloat showPtr
          (main worldQuadsFail ("projectTest" :: "quad.obj" :: "out" :: [])).out)) ∧
    ((atGetRefinedPositions worldLenient quad "").ok = false ∧
      occursIn "GetRefinedPositions failed with "
        (render showFloat showPtr
          (main worldLenient ("projectTest" :: "quad.obj" :: "out" :: [])).out)) :=
  ⟨⟨by decide, by decide,
      (failure_report worldInvalid "projectTest" "quad.obj" "out" [] [118, 10, 0] 1 quad
        (by decide) showFloat showPtr).1 (by decide)⟩,
    ⟨by decide, by decide,
      (failure_report worldInitializeFails "projectTest" "quad.obj" "out" [] [118, 10, 0] 1
        quad (by decide) showFloat showPtr).2.1 (by decide) (by decide)⟩,
    ⟨by decide, by decide,
      (failure_report world "projectTest" "short.obj" "out" [] [118, 32, 10, 0] 1 short
        (by decide) showFloat showPtr).2.2.1 (by decide) (by decide) (by decide)⟩,
    ⟨by decide,
      (failure_report worldQuadsFail "projectTest" "quad.obj" "out" [] [118, 10, 0] 1 quad
        (by decide) showFloat showPtr).2.2.2.1 (by decide) (by decide) (by decide)
        (by decide)⟩,
    ⟨by decide,
      (failure_report worldLenient "projectTest" "quad.obj" "out" [] [118, 10, 0] 1 quad
        (by decide) showFloat showPtr).2.2.2.2 (by decide) (by decide) (by decide)
        (by decide)⟩⟩

end Concrete


end ProjectTest
